import Mathlib

/-!
Verification development for the CarCard tag lifecycle and privacy-gated
contact resolution subsystem.

The definitions below are a shallow embedding of the backend tag controller
(`updateTag`, `sendTagOtp`, `verifyTagOtpAndUpdate`, `updatePrivacy`,
`getPublicTag`, `activateTag`) together with the QR payload builder from the
batch generation script.  Persistent storage is modelled as an explicit
`Store` value threaded through each operation; millisecond clock readings
(`Date.now()`) and the random OTP draw are passed as parameters.
-/

namespace CarCard

/-- A persisted tag row.  Nullable database columns are `Option`s. -/
structure Tag where
  id : String
  code : String
  userId : Option String
  status : String
  isActive : Bool
  nickname : Option String
  plateNumber : Option String
  type : String
  vehicleColor : Option String
  vehicleMake : Option String
  vehicleModel : Option String
  emergencyContactName : Option String
  emergencyContactPhone : Option String
  allowMaskedCall : Bool
  allowWhatsapp : Bool
  allowSms : Bool
  showEmergencyContact : Bool
deriving Repr, DecidableEq

/-- A scan-log row (`prisma.scan.create` appends one). -/
structure Scan where
  tagId : String
  location : String
  timestamp : Nat
deriving Repr, DecidableEq

/-- The request body of an update: each field is `some v` when the JSON key
is present and `none` when it is `undefined`. -/
structure TagPatch where
  nickname : Option String := none
  plateNumber : Option String := none
  type : Option String := none
  vehicleColor : Option String := none
  vehicleMake : Option String := none
  vehicleModel : Option String := none
  emergencyContactName : Option String := none
  emergencyContactPhone : Option String := none
  allowMaskedCall : Option Bool := none
  allowWhatsapp : Option Bool := none
  allowSms : Option Bool := none
  showEmergencyContact : Option Bool := none
deriving Repr, DecidableEq

/-- One entry of the in-memory `tagOtpStore`. -/
structure OtpEntry where
  otp : String
  expiresAt : Nat
  pendingData : TagPatch
deriving Repr, DecidableEq

/-- The shared persistent state: the tag table, the scan table and the
in-memory OTP store (an object keyed by the string `` id ++ ":" ++ phone ``). -/
structure Store where
  tags : List Tag
  scans : List Scan
  tagOtpStore : List (String × OtpEntry)
deriving Repr, DecidableEq

/-- JS truthiness of a nullable string: `null`/`undefined` and `''` are falsy. -/
def strTruthy : Option String → Bool
  | none => false
  | some s => s ≠ ""

/-- `s || d` on JS strings: falls back to `d` when `s` is `undefined` or `''`. -/
def jsOrStr (s : Option String) (d : String) : String :=
  match s with
  | none => d
  | some v => if v = "" then d else v

/-- `prisma.tag.findUnique({ where: { id } })`. -/
def findTagById (st : Store) (id : String) : Option Tag :=
  st.tags.find? (fun t => t.id = id)

/-- `prisma.tag.findUnique({ where: { code } })`. -/
def findTagByCode (st : Store) (code : String) : Option Tag :=
  st.tags.find? (fun t => t.code = code)

/-- `findTagByIdOrCode`: identifiers with `identifier.startsWith('TAG-')` are
looked up by code, the rest by id (the prefix test is taken on the character
sequence). -/
def findTagByIdOrCode (st : Store) (identifier : String) : Option Tag :=
  if identifier.data.take 4 = "TAG-".data then findTagByCode st identifier
  else findTagById st identifier

/-- `prisma.tag.update({ where: { id }, data })`: rewrite the matching row. -/
def updateTagRecord (st : Store) (id : String) (f : Tag → Tag) : Store :=
  { st with tags := st.tags.map (fun t => if t.id = id then f t else t) }

/-- Lookup in the `tagOtpStore` object. -/
def otpLookup (store : List (String × OtpEntry)) (k : String) : Option OtpEntry :=
  (store.find? (fun e => e.1 = k)).map (fun e => e.2)

/-- `tagOtpStore[k] = v`: assignment overwrites any prior entry for `k`. -/
def otpInsert (store : List (String × OtpEntry)) (k : String) (v : OtpEntry) :
    List (String × OtpEntry) :=
  store.filter (fun e => e.1 ≠ k) ++ [(k, v)]

/-- `delete tagOtpStore[k]`. -/
def otpDelete (store : List (String × OtpEntry)) (k : String) :
    List (String × OtpEntry) :=
  store.filter (fun e => e.1 ≠ k)

/-- The nested `privacy` object of `formatTagResponse`. -/
structure PrivacyView where
  allowMaskedCall : Bool
  allowWhatsapp : Bool
  allowSms : Bool
  showEmergencyContact : Bool
deriving Repr, DecidableEq

/-- The nested `emergencyContact` object of `formatTagResponse`. -/
structure EmergencyContactView where
  name : Option String
  phone : Option String
deriving Repr, DecidableEq

/-- The JSON body produced by `formatTagResponse`: the spread of the raw tag
row (`...tag`), the `_id` alias, and the two nested objects.  The
`emergencyContact` field is an `Option` so that a response that omits the
block is representable (`none`); the controller as written always sets it. -/
structure TagResponse where
  id : String
  idAlias : String
  code : String
  userId : Option String
  status : String
  isActive : Bool
  nickname : Option String
  plateNumber : Option String
  type : String
  vehicleColor : Option String
  vehicleMake : Option String
  vehicleModel : Option String
  emergencyContactName : Option String
  emergencyContactPhone : Option String
  allowMaskedCall : Bool
  allowWhatsapp : Bool
  allowSms : Bool
  showEmergencyContact : Bool
  privacy : PrivacyView
  emergencyContact : Option EmergencyContactView
deriving Repr, DecidableEq

/-- `formatTagResponse` (tag controller): spreads every column of the row and
adds `_id`, `privacy` and `emergencyContact`. -/
def formatTagResponse (t : Tag) : TagResponse :=
  { id := t.id
    idAlias := t.id
    code := t.code
    userId := t.userId
    status := t.status
    isActive := t.isActive
    nickname := t.nickname
    plateNumber := t.plateNumber
    type := t.type
    vehicleColor := t.vehicleColor
    vehicleMake := t.vehicleMake
    vehicleModel := t.vehicleModel
    emergencyContactName := t.emergencyContactName
    emergencyContactPhone := t.emergencyContactPhone
    allowMaskedCall := t.allowMaskedCall
    allowWhatsapp := t.allowWhatsapp
    allowSms := t.allowSms
    showEmergencyContact := t.showEmergencyContact
    privacy :=
      { allowMaskedCall := t.allowMaskedCall
        allowWhatsapp := t.allowWhatsapp
        allowSms := t.allowSms
        showEmergencyContact := t.showEmergencyContact }
    emergencyContact :=
      some { name := t.emergencyContactName, phone := t.emergencyContactPhone } }

/-- The `isPhoneChanging` test of `updateTag`: the patch carries an
`emergencyContactPhone` that is present, differs from the stored value and is
non-empty. -/
def isPhoneChanging (tag : Tag) (patch : TagPatch) : Bool :=
  match patch.emergencyContactPhone with
  | none => false
  | some p => some p ≠ tag.emergencyContactPhone ∧ p ≠ ""

/-- Apply the `updateData` object built field-by-field from the request body:
only keys present in the patch are written.  `emergencyContactPhone` is
deliberately absent from this list in the source. -/
def applyUpdatePatch (t : Tag) (p : TagPatch) : Tag :=
  { t with
    nickname := match p.nickname with | some v => some v | none => t.nickname
    plateNumber := match p.plateNumber with | some v => some v | none => t.plateNumber
    type := match p.type with | some v => v | none => t.type
    vehicleColor := match p.vehicleColor with | some v => some v | none => t.vehicleColor
    vehicleMake := match p.vehicleMake with | some v => some v | none => t.vehicleMake
    vehicleModel := match p.vehicleModel with | some v => some v | none => t.vehicleModel
    emergencyContactName :=
      match p.emergencyContactName with | some v => some v | none => t.emergencyContactName
    allowMaskedCall := p.allowMaskedCall.getD t.allowMaskedCall
    allowWhatsapp := p.allowWhatsapp.getD t.allowWhatsapp
    allowSms := p.allowSms.getD t.allowSms
    showEmergencyContact := p.showEmergencyContact.getD t.showEmergencyContact }

inductive UpdateTagResult where
  | notAuthenticated
  | notFound
  | forbidden
  | otpRequired
  | updated (body : TagResponse)
deriving Repr, DecidableEq

/-- `PUT /tags/:id` — `updateTag`. -/
def updateTag (st : Store) (id : String) (userId : Option String)
    (patch : TagPatch) : UpdateTagResult × Store :=
  match userId with
  | none => (.notAuthenticated, st)
  | some uid =>
    match findTagById st id with
    | none => (.notFound, st)
    | some tag =>
      if tag.userId ≠ some uid then (.forbidden, st)
      else if isPhoneChanging tag patch then (.otpRequired, st)
      else
        (.updated (formatTagResponse (applyUpdatePatch tag patch)),
          updateTagRecord st id (fun t => applyUpdatePatch t patch))

inductive SendOtpResult where
  | notAuthenticated
  | notFound
  | forbidden
  | phoneRequired
  | sent
deriving Repr, DecidableEq

/-- The 6-digit OTP string produced by
`Math.floor(100000 + Math.random() * 900000).toString()`; the random draw is
the parameter `rand` (`Math.random() * 900000` truncated). -/
def otpString (rand : Nat) : String :=
  toString (100000 + rand % 900000)

/-- `POST /tags/:id/otp/send` — `sendTagOtp`.  `rand` stands for the random
draw and `now` for `Date.now()` in milliseconds. -/
def sendTagOtp (st : Store) (id : String) (userId : Option String)
    (phoneNumber : String) (pendingData : Option TagPatch)
    (rand : Nat) (now : Nat) : SendOtpResult × Store :=
  match userId with
  | none => (.notAuthenticated, st)
  | some uid =>
    match findTagById st id with
    | none => (.notFound, st)
    | some tag =>
      if tag.userId ≠ some uid then (.forbidden, st)
      else if phoneNumber = "" then (.phoneRequired, st)
      else
        (.sent,
          { st with
            tagOtpStore :=
              otpInsert st.tagOtpStore (id ++ ":" ++ phoneNumber)
                { otp := otpString rand
                  expiresAt := now + 5 * 60 * 1000
                  pendingData := pendingData.getD {} } })

inductive VerifyOtpResult where
  | notAuthenticated
  | notFound
  | forbidden
  | noPendingOtp
  | expired
  | invalidOtp
  | updated (body : TagResponse)
deriving Repr, DecidableEq

/-- The commit performed after a verified OTP: the same field list as
`applyUpdatePatch` plus `emergencyContactPhone = phoneNumber` (the verified
number). -/
def commitVerifiedPatch (t : Tag) (data : TagPatch) (phone : String) : Tag :=
  { applyUpdatePatch t data with emergencyContactPhone := some phone }

/-- `POST /tags/:id/otp/verify` — `verifyTagOtpAndUpdate`.  The pending patch
used is `pendingData || stored.pendingData` (verify-time body first, else the
patch captured at send time). -/
def verifyTagOtpAndUpdate (st : Store) (id : String) (userId : Option String)
    (phoneNumber : String) (otp : String) (pendingData : Option TagPatch)
    (now : Nat) : VerifyOtpResult × Store :=
  match userId with
  | none => (.notAuthenticated, st)
  | some uid =>
    match findTagById st id with
    | none => (.notFound, st)
    | some tag =>
      if tag.userId ≠ some uid then (.forbidden, st)
      else
        let storeKey := id ++ ":" ++ phoneNumber
        match otpLookup st.tagOtpStore storeKey with
        | none => (.noPendingOtp, st)
        | some stored =>
          if now > stored.expiresAt then
            (.expired, { st with tagOtpStore := otpDelete st.tagOtpStore storeKey })
          else if stored.otp ≠ otp then (.invalidOtp, st)
          else
            let data := pendingData.getD stored.pendingData
            (.updated (formatTagResponse (commitVerifiedPatch tag data phoneNumber)),
              { updateTagRecord st id (fun t => commitVerifiedPatch t data phoneNumber) with
                tagOtpStore := otpDelete st.tagOtpStore storeKey })

/-- The togglable Boolean columns of the tag row.  The source writes
`updateData[setting] = !tag[setting]` with a client-supplied key; only a
Boolean column can actually be toggled (a non-Boolean column makes the
persistence layer reject the write), so the setting is embedded as the
enumeration of the Boolean columns. -/
inductive PrivacySetting where
  | isActive
  | allowMaskedCall
  | allowWhatsapp
  | allowSms
  | showEmergencyContact
deriving Repr, DecidableEq

def toggleSetting (t : Tag) : PrivacySetting → Tag
  | .isActive => { t with isActive := !t.isActive }
  | .allowMaskedCall => { t with allowMaskedCall := !t.allowMaskedCall }
  | .allowWhatsapp => { t with allowWhatsapp := !t.allowWhatsapp }
  | .allowSms => { t with allowSms := !t.allowSms }
  | .showEmergencyContact => { t with showEmergencyContact := !t.showEmergencyContact }

inductive UpdatePrivacyResult where
  | notFound
  | updated (body : TagResponse)
deriving Repr, DecidableEq

/-- `PATCH /tags/:id/privacy` — `updatePrivacy` (no ownership check in the
source). -/
def updatePrivacy (st : Store) (id : String) (setting : PrivacySetting) :
    UpdatePrivacyResult × Store :=
  match findTagById st id with
  | none => (.notFound, st)
  | some tag =>
    (.updated (formatTagResponse (toggleSetting tag setting)),
      updateTagRecord st id (fun t => toggleSetting t setting))

inductive PublicTagResult where
  | notFound
  | blank (body : TagResponse)
  | locked
  | ok (body : TagResponse)
deriving Repr, DecidableEq

/-- `GET /tags/public/:id` — `getPublicTag`.  `isFromApp` is the
`x-carcard-app: true` header; `now` is the scan timestamp.  The `locked`
result is the constant 403 body (app-store links and a message only). -/
def getPublicTag (st : Store) (identifier : String) (isFromApp : Bool)
    (now : Nat) : PublicTagResult × Store :=
  match findTagByIdOrCode st identifier with
  | none => (.notFound, st)
  | some tag =>
    if tag.status = "created" ∧ strTruthy tag.userId = false then
      if isFromApp then (.blank (formatTagResponse tag), st)
      else (.locked, st)
    else
      (.ok (formatTagResponse tag),
        { st with scans := st.scans ++ [{ tagId := tag.id, location := "Unknown", timestamp := now }] })

/-- The columns written by `activateTag`'s update. -/
def activateWrite (uid : String) (nickname plateNumber : Option String)
    (t : Tag) : Tag :=
  { t with
    userId := some uid
    nickname := some (jsOrStr nickname "My Vehicle")
    plateNumber := some (jsOrStr plateNumber "")
    status := "active"
    isActive := true }

inductive ActivateResult where
  | notAuthenticated
  | notFound
  | alreadyClaimed
  | activated (body : TagResponse)
deriving Repr, DecidableEq

/-- `POST /tags/activate` — `activateTag`, run as one uninterrupted request. -/
def activateTag (st : Store) (code : String) (userId : Option String)
    (nickname plateNumber : Option String) : ActivateResult × Store :=
  match userId with
  | none => (.notAuthenticated, st)
  | some uid =>
    match findTagByCode st code with
    | none => (.notFound, st)
    | some tag =>
      if tag.status = "active" ∨ strTruthy tag.userId = true then (.alreadyClaimed, st)
      else
        (.activated (formatTagResponse (activateWrite uid nickname plateNumber tag)),
          updateTagRecord st tag.id (activateWrite uid nickname plateNumber))

/-! ### Interleaving model of concurrent `activateTag` requests

`activateTag` performs two storage operations separated by an `await`
boundary: the `findUnique` read (followed by the synchronous
status/owner check) and the `update` write.  In the Node event loop a
second request may run between the two, so a claim attempt is modelled as
a two-step process over the shared `Store`. -/

/-- Program counter of one in-flight `activateTag` request: not yet started,
past the read+check (holding the row id it read), or finished. -/
inductive ClaimPc where
  | start
  | checked (tagId : String)
  | done (r : ActivateResult)
deriving Repr, DecidableEq

/-- One claim attempt: the authenticated user and the request body. -/
structure ClaimAttempt where
  uid : String
  nickname : Option String := none
  plateNumber : Option String := none
deriving Repr, DecidableEq

/-- Execute one storage step of an `activateTag` request. -/
def claimStep (code : String) (att : ClaimAttempt) (pc : ClaimPc) (st : Store) :
    ClaimPc × Store :=
  match pc with
  | .start =>
    match findTagByCode st code with
    | none => (.done .notFound, st)
    | some tag =>
      if tag.status = "active" ∨ strTruthy tag.userId = true then (.done .alreadyClaimed, st)
      else (.checked tag.id, st)
  | .checked tagId =>
    match findTagById st tagId with
    | none => (.done .notFound, st)
    | some cur =>
      (.done (.activated (formatTagResponse
          (activateWrite att.uid att.nickname att.plateNumber cur))),
        updateTagRecord st tagId (activateWrite att.uid att.nickname att.plateNumber))
  | .done r => (.done r, st)

/-- Run two concurrent `activateTag` requests for the same `code` under a
schedule: `true` steps the first request, `false` the second. -/
def runTwoClaims (code : String) (a b : ClaimAttempt) (sched : List Bool)
    (st : Store) : ClaimPc × ClaimPc × Store :=
  sched.foldl
    (fun acc who =>
      let (pa, pb, s) := acc
      if who then
        let (pa', s') := claimStep code a pa s
        (pa', pb, s')
      else
        let (pb', s') := claimStep code b pb s
        (pa, pb', s'))
    (.start, .start, st)

/-! ### QR payload builder (`backend/scripts/generateTags.ts`) -/

/-- The fixed shared-secret keystream. -/
def SECRET_KEY : String := "C@rC4rd$ecr3tK3y!2026#QR"

/-- `stringToBytes`: `charCodeAt` per character.  For the ASCII strings this
development considers, the UTF-16 code unit equals the code point. -/
def stringToBytes (s : String) : List Nat :=
  s.data.map (fun c => c.toNat)

/-- The base64 alphabet. -/
def BASE64_CHARS : String :=
  "ABCDEFGHIJKLMNOPQRSTUVWXYZabcdefghijklmnopqrstuvwxyz0123456789+/"

/-- `BASE64_CHARS[i]` (every index used is `< 64`). -/
def b64Char (i : Nat) : Char :=
  BASE64_CHARS.data.getD i '?'

/-- First output index of a chunk: `(b1 >> 2) & 0x3f`. -/
def b64e1 (b1 : Nat) : Nat := (b1 >>> 2) &&& 63

/-- Second output index: `((b1 << 4) | (b2 >> 4)) & 0x3f`. -/
def b64e2 (b1 b2 : Nat) : Nat := ((b1 <<< 4) ||| (b2 >>> 4)) &&& 63

/-- Third output index: `((b2 << 2) | (b3 >> 6)) & 0x3f`. -/
def b64e3 (b2 b3 : Nat) : Nat := ((b2 <<< 2) ||| (b3 >>> 6)) &&& 63

/-- Fourth output index: `b3 & 0x3f`. -/
def b64e4 (b3 : Nat) : Nat := b3 &&& 63

/-- `bytesToBase64`: the `i += 3` loop; missing bytes of the last chunk are
taken as `0` and the corresponding outputs replaced by `=` padding. -/
def bytesToBase64 : List Nat → List Char
  | [] => []
  | [b1] => [b64Char (b64e1 b1), b64Char (b64e2 b1 0), '=', '=']
  | [b1, b2] => [b64Char (b64e1 b1), b64Char (b64e2 b1 b2), b64Char (b64e3 b2 0), '=']
  | b1 :: b2 :: b3 :: rest =>
    b64Char (b64e1 b1) :: b64Char (b64e2 b1 b2) :: b64Char (b64e3 b2 b3) ::
      b64Char (b64e4 b3) :: bytesToBase64 rest

/-- The XOR loop of `encryptTagCode`: byte `i` of the input is XORed with
`keyBytes[i % keyBytes.length]`; `i` is the running index. -/
def xorFrom (key : List Nat) : Nat → List Nat → List Nat
  | _, [] => []
  | i, b :: rest => (b ^^^ key.getD (i % key.length) 0) :: xorFrom key (i + 1) rest

/-- `encryptTagCode`: XOR against the repeating keystream, then base64. -/
def encryptTagCode (plaintext : String) : List Char :=
  bytesToBase64 (xorFrom (stringToBytes SECRET_KEY) 0 (stringToBytes plaintext))

/-- `buildQrPayload(tagCode)` = `` `CC::1:${encryptTagCode(tagCode)}` ``. -/
def buildQrPayload (tagCode : String) : String :=
  String.mk ("CC::1:".data ++ encryptTagCode tagCode)

/-- Index of a character in the base64 alphabet. -/
def b64Index (c : Char) : Option Nat :=
  BASE64_CHARS.data.indexOf? c

/-- Modelled from the spec: the base64-decode half of the mirror decoding
operation (the companion-app decoder is not part of the repository sources).
Groups of four alphabet characters yield three bytes; `=` padding marks a
short final chunk. -/
def base64DecodeChars : List Char → Option (List Nat)
  | [] => some []
  | c1 :: c2 :: c3 :: c4 :: rest =>
    match b64Index c1, b64Index c2 with
    | some i1, some i2 =>
      if c3 = '=' then
        if rest = [] then some [i1 * 4 + i2 / 16] else none
      else
        match b64Index c3 with
        | some i3 =>
          if c4 = '=' then
            if rest = [] then some [i1 * 4 + i2 / 16, (i2 % 16) * 16 + i3 / 4] else none
          else
            match b64Index c4, base64DecodeChars rest with
            | some i4, some tail =>
              some ((i1 * 4 + i2 / 16) :: ((i2 % 16) * 16 + i3 / 4) ::
                ((i3 % 4) * 64 + i4) :: tail)
            | _, _ => none
        | none => none
    | _, _ => none
  | _ => none

/-- Modelled from the spec: the mirror decoding operation — strip the format
tag and version marker `CC::1:`, base64-decode, XOR back with the same key. -/
def decodeQrPayload (payload : String) : Option String :=
  match payload.data with
  | 'C' :: 'C' :: ':' :: ':' :: '1' :: ':' :: body =>
    match base64DecodeChars body with
    | some bytes =>
      some (String.mk ((xorFrom (stringToBytes SECRET_KEY) 0 bytes).map Char.ofNat))
    | none => none
  | _ => none

/-! ### Helper lemmas -/

theorem find?_filter_ne_none (s : List (String × OtpEntry)) (k : String) :
    (s.filter (fun e => e.1 ≠ k)).find? (fun e => e.1 = k) = none := by
  induction s with
  | nil => rfl
  | cons a s ih =>
    by_cases h : a.1 = k
    · simp [List.filter_cons, h, ih]
    · rw [List.filter_cons, if_pos (by simp [h]),
        List.find?_cons_of_neg _ (by simp [h])]
      exact ih

theorem otpLookup_insert_self (s : List (String × OtpEntry)) (k : String)
    (v : OtpEntry) : otpLookup (otpInsert s k v) k = some v := by
  unfold otpLookup otpInsert
  rw [List.find?_append, find?_filter_ne_none]
  simp

theorem otpLookup_delete_self (s : List (String × OtpEntry)) (k : String) :
    otpLookup (otpDelete s k) k = none := by
  unfold otpLookup otpDelete
  rw [find?_filter_ne_none]
  rfl

theorem find?_map_ite (l : List Tag) (id : String) (f : Tag → Tag)
    (hid : ∀ t, (f t).id = t.id) :
    (l.map (fun t => if t.id = id then f t else t)).find? (fun t => t.id = id)
      = (l.find? (fun t => t.id = id)).map f := by
  induction l with
  | nil => rfl
  | cons a l ih =>
    by_cases h : a.id = id
    · rw [List.map_cons, if_pos h,
        List.find?_cons_of_pos _ (by simp [hid a, h]),
        List.find?_cons_of_pos _ (by simp [h])]
      rfl
    · rw [List.map_cons, if_neg h,
        List.find?_cons_of_neg _ (by simp [h]),
        List.find?_cons_of_neg _ (by simp [h])]
      exact ih

theorem findTagById_updateTagRecord (st : Store) (id : String) (f : Tag → Tag)
    (hid : ∀ t, (f t).id = t.id) :
    findTagById (updateTagRecord st id f) id = (findTagById st id).map f :=
  find?_map_ite st.tags id f hid

theorem applyUpdatePatch_id (t : Tag) (p : TagPatch) :
    (applyUpdatePatch t p).id = t.id := rfl

theorem commitVerifiedPatch_id (t : Tag) (d : TagPatch) (ph : String) :
    (commitVerifiedPatch t d ph).id = t.id := rfl

theorem commitVerifiedPatch_userId (t : Tag) (d : TagPatch) (ph : String) :
    (commitVerifiedPatch t d ph).userId = t.userId := rfl

/-! ### Fixtures used by the witnesses -/

/-- A claimed, active tag whose privacy flags forbid WhatsApp and hide the
emergency contact. -/
def sampleTag : Tag :=
  { id := "tag-1", code := "TAG-AB12CD34", userId := some "u1",
    status := "active", isActive := true, nickname := some "Car",
    plateNumber := some "MH12AB1234", type := "car", vehicleColor := none,
    vehicleMake := none, vehicleModel := none,
    emergencyContactName := some "Alice",
    emergencyContactPhone := some "9876543210", allowMaskedCall := true,
    allowWhatsapp := false, allowSms := true, showEmergencyContact := false }

/-- A batch-issued blank tag: status `created`, no owner. -/
def blankTag : Tag :=
  { id := "tag-2", code := "TAG-BLANK001", userId := none,
    status := "created", isActive := false, nickname := none,
    plateNumber := none, type := "car", vehicleColor := none,
    vehicleMake := none, vehicleModel := none, emergencyContactName := none,
    emergencyContactPhone := none, allowMaskedCall := true,
    allowWhatsapp := true, allowSms := true, showEmergencyContact := false }

def sampleStore : Store :=
  { tags := [sampleTag, blankTag], scans := [], tagOtpStore := [] }

/-- A pending OTP entry for `sampleTag` keyed by `tag-1:9998887777`. -/
def sampleEntry : OtpEntry :=
  { otp := "483920", expiresAt := 301000,
    pendingData := { nickname := some "Car2" } }

def otpStore1 : Store :=
  { sampleStore with tagOtpStore := [("tag-1:9998887777", sampleEntry)] }

/-! ### Claims -/

/-- Claim C2: an owner's `updateTag` whose patch carries a present, non-empty
`emergencyContactPhone` different from the stored value answers `otpRequired`
and persists nothing — the store (hence every field of the stored tag,
including the non-phone fields of the same patch) is returned unchanged. -/
theorem updateTag_phoneChange_otpRequired_noPersist
    (st : Store) (id uid p : String) (tag : Tag) (patch : TagPatch)
    (hfind : findTagById st id = some tag)
    (hown : tag.userId = some uid)
    (hp : patch.emergencyContactPhone = some p)
    (hdiff : some p ≠ tag.emergencyContactPhone)
    (hne : p ≠ "") :
    updateTag st id (some uid) patch = (.otpRequired, st) := by
  simp [updateTag, hfind, hown, isPhoneChanging, hp, hdiff, hne]

theorem updateTag_phoneChange_otpRequired_noPersist_witness :
    updateTag sampleStore "tag-1" (some "u1")
        { nickname := some "Car2", emergencyContactPhone := some "9998887777" } =
      (.otpRequired, sampleStore) :=
  updateTag_phoneChange_otpRequired_noPersist sampleStore "tag-1" "u1"
    "9998887777" sampleTag _ (by decide) (by decide) rfl (by decide) (by decide)

/-- Claim C6: public resolution of a `created`, ownerless tag branches on the
app-trust signal: with the trusted-app header the blank tag is returned
(marked by the dedicated blank result), without it the constant `locked`
response is returned, which carries no tag field at all; in both branches
the store is untouched. -/
theorem resolvePublic_blank_branch
    (st : Store) (identifier : String) (tag : Tag) (now : Nat)
    (hfind : findTagByIdOrCode st identifier = some tag)
    (hstatus : tag.status = "created")
    (howner : tag.userId = none) :
    getPublicTag st identifier true now = (.blank (formatTagResponse tag), st) ∧
    getPublicTag st identifier false now = (.locked, st) := by
  unfold getPublicTag
  rw [hfind]
  simp [hstatus, howner, strTruthy]

theorem resolvePublic_blank_branch_witness :
    getPublicTag sampleStore "TAG-BLANK001" true 7 =
      (.blank (formatTagResponse blankTag), sampleStore) ∧
    getPublicTag sampleStore "TAG-BLANK001" false 7 = (.locked, sampleStore) :=
  resolvePublic_blank_branch sampleStore "TAG-BLANK001" blankTag 7
    (by decide) rfl rfl

/-- Claim C5: an owner's `verifyTagOtpAndUpdate` on a pending entry whose
expiry has passed answers `expired` and deletes the stale entry as a side
effect, while the tag table (and the scan log) stay unchanged. -/
theorem verifyOtp_expired_deletes_pending
    (st : Store) (id uid phone otp : String) (vp : Option TagPatch)
    (tag : Tag) (stored : OtpEntry) (now : Nat)
    (hfind : findTagById st id = some tag)
    (hown : tag.userId = some uid)
    (hstored : otpLookup st.tagOtpStore (id ++ ":" ++ phone) = some stored)
    (hexp : now > stored.expiresAt) :
    verifyTagOtpAndUpdate st id (some uid) phone otp vp now =
      (.expired,
        { st with tagOtpStore := otpDelete st.tagOtpStore (id ++ ":" ++ phone) }) ∧
    otpLookup (verifyTagOtpAndUpdate st id (some uid) phone otp vp now).2.tagOtpStore
      (id ++ ":" ++ phone) = none := by
  have h1 : verifyTagOtpAndUpdate st id (some uid) phone otp vp now =
      (.expired,
        { st with tagOtpStore := otpDelete st.tagOtpStore (id ++ ":" ++ phone) }) := by
    simp [verifyTagOtpAndUpdate, hfind, hown, hstored, hexp]
  refine ⟨h1, ?_⟩
  rw [h1]
  exact otpLookup_delete_self _ _

theorem verifyOtp_expired_deletes_pending_witness :
    verifyTagOtpAndUpdate otpStore1 "tag-1" (some "u1") "9998887777" "483920"
        none 9999999 =
      (.expired,
        { otpStore1 with
          tagOtpStore := otpDelete otpStore1.tagOtpStore "tag-1:9998887777" }) ∧
    otpLookup (verifyTagOtpAndUpdate otpStore1 "tag-1" (some "u1") "9998887777"
        "483920" none 9999999).2.tagOtpStore "tag-1:9998887777" = none :=
  verifyOtp_expired_deletes_pending otpStore1 "tag-1" "u1" "9998887777"
    "483920" none sampleTag sampleEntry 9999999 (by decide) (by decide)
    (by decide) (by decide)

/-- Claim C10: an owner's `verifyTagOtpAndUpdate` on an unexpired pending
entry with a wrong code answers `invalidOtp` and modifies nothing — the
store is returned exactly as it was, the entry included — so a later verify
with the correct code inside the window still commits. -/
theorem verifyOtp_invalid_code_keeps_pending
    (st : Store) (id uid phone otp : String) (vp : Option TagPatch)
    (tag : Tag) (stored : OtpEntry) (now : Nat)
    (hfind : findTagById st id = some tag)
    (hown : tag.userId = some uid)
    (hstored : otpLookup st.tagOtpStore (id ++ ":" ++ phone) = some stored)
    (hnotexp : ¬ now > stored.expiresAt)
    (hwrong : stored.otp ≠ otp) :
    verifyTagOtpAndUpdate st id (some uid) phone otp vp now = (.invalidOtp, st) ∧
    ∀ (vp2 : Option TagPatch) (now2 : Nat), ¬ now2 > stored.expiresAt →
      (verifyTagOtpAndUpdate st id (some uid) phone stored.otp vp2 now2).1 =
        .updated (formatTagResponse
          (commitVerifiedPatch tag (vp2.getD stored.pendingData) phone)) := by
  constructor
  · simp [verifyTagOtpAndUpdate, hfind, hown, hstored, hnotexp, hwrong]
  · intro vp2 now2 hnotexp2
    simp [verifyTagOtpAndUpdate, hfind, hown, hstored, hnotexp2]

theorem verifyOtp_invalid_code_keeps_pending_witness :
    verifyTagOtpAndUpdate otpStore1 "tag-1" (some "u1") "9998887777" "000000"
        none 5000 = (.invalidOtp, otpStore1) ∧
    (verifyTagOtpAndUpdate otpStore1 "tag-1" (some "u1") "9998887777"
        sampleEntry.otp none 6000).1 =
      .updated (formatTagResponse
        (commitVerifiedPatch sampleTag
          ((none : Option TagPatch).getD sampleEntry.pendingData) "9998887777")) :=
  ⟨(verifyOtp_invalid_code_keeps_pending otpStore1 "tag-1" "u1" "9998887777"
      "000000" none sampleTag sampleEntry 5000 (by decide) (by decide)
      (by decide) (by decide) (by decide)).1,
   (verifyOtp_invalid_code_keeps_pending otpStore1 "tag-1" "u1" "9998887777"
      "000000" none sampleTag sampleEntry 5000 (by decide) (by decide)
      (by decide) (by decide) (by decide)).2 none 6000 (by decide)⟩

/-- `findTagById` reads only the tag table. -/
theorem findTagById_set_otpStore (st : Store) (x : List (String × OtpEntry))
    (id : String) : findTagById { st with tagOtpStore := x } id = findTagById st id := rfl

/-- Claim C4: `sendTagOtp` by the owner stores a pending entry under
`` id ++ ":" ++ phone `` holding a 6-digit decimal code, the 5-minute expiry
and the captured patch; `verifyTagOtpAndUpdate` with the matching code, the
same key and a time inside the window answers `updated`, commits the pending
patch (the verify-time body when given, else the captured one) together with
`emergencyContactPhone = phone`, and deletes the entry, so that a second
verify with the same code fails with `noPendingOtp` and changes nothing. -/
theorem otp_send_verify_roundtrip
    (st st1 st2 : Store) (id uid phone : String) (patch : TagPatch)
    (vp : Option TagPatch) (tag : Tag) (rand now0 now1 : Nat)
    (hfind : findTagById st id = some tag)
    (hown : tag.userId = some uid)
    (hphone : phone ≠ "")
    (hwin : now1 ≤ now0 + 5 * 60 * 1000)
    (hst1 : st1 = (sendTagOtp st id (some uid) phone (some patch) rand now0).2)
    (hst2 : st2 = (verifyTagOtpAndUpdate st1 id (some uid) phone
      (otpString rand) vp now1).2) :
    (sendTagOtp st id (some uid) phone (some patch) rand now0).1 = .sent ∧
    otpLookup st1.tagOtpStore (id ++ ":" ++ phone) =
      some { otp := otpString rand, expiresAt := now0 + 5 * 60 * 1000,
             pendingData := patch } ∧
    (∃ n, otpString rand = toString n ∧ 100000 ≤ n ∧ n ≤ 999999) ∧
    (verifyTagOtpAndUpdate st1 id (some uid) phone (otpString rand) vp now1).1 =
      .updated (formatTagResponse (commitVerifiedPatch tag (vp.getD patch) phone)) ∧
    findTagById st2 id = some (commitVerifiedPatch tag (vp.getD patch) phone) ∧
    otpLookup st2.tagOtpStore (id ++ ":" ++ phone) = none ∧
    verifyTagOtpAndUpdate st2 id (some uid) phone (otpString rand) vp now1 =
      (.noPendingOtp, st2) := by
  have hsend : sendTagOtp st id (some uid) phone (some patch) rand now0 =
      (.sent,
        { st with
          tagOtpStore := otpInsert st.tagOtpStore (id ++ ":" ++ phone)
            { otp := otpString rand, expiresAt := now0 + 5 * 60 * 1000,
              pendingData := patch } }) := by
    simp [sendTagOtp, hfind, hown, hphone]
  subst hst1 hst2
  rw [hsend]
  have hfind1 : findTagById
      ({ st with
        tagOtpStore := otpInsert st.tagOtpStore (id ++ ":" ++ phone)
          { otp := otpString rand, expiresAt := now0 + 5 * 60 * 1000,
            pendingData := patch } } : Store) id = some tag := hfind
  have hlook : otpLookup (otpInsert st.tagOtpStore (id ++ ":" ++ phone)
      { otp := otpString rand, expiresAt := now0 + 5 * 60 * 1000,
        pendingData := patch }) (id ++ ":" ++ phone) =
      some { otp := otpString rand, expiresAt := now0 + 5 * 60 * 1000,
             pendingData := patch } :=
    otpLookup_insert_self _ _ _
  have hverify : verifyTagOtpAndUpdate
      ({ st with
        tagOtpStore := otpInsert st.tagOtpStore (id ++ ":" ++ phone)
          { otp := otpString rand, expiresAt := now0 + 5 * 60 * 1000,
            pendingData := patch } } : Store) id (some uid) phone
      (otpString rand) vp now1 =
      (.updated (formatTagResponse (commitVerifiedPatch tag (vp.getD patch) phone)),
        { updateTagRecord
            ({ st with
              tagOtpStore := otpInsert st.tagOtpStore (id ++ ":" ++ phone)
                { otp := otpString rand, expiresAt := now0 + 5 * 60 * 1000,
                  pendingData := patch } } : Store) id
            (fun t => commitVerifiedPatch t (vp.getD patch) phone) with
          tagOtpStore := otpDelete (otpInsert st.tagOtpStore (id ++ ":" ++ phone)
            { otp := otpString rand, expiresAt := now0 + 5 * 60 * 1000,
              pendingData := patch }) (id ++ ":" ++ phone) }) := by
    simp [verifyTagOtpAndUpdate, hfind1, hown, hlook,
      show ¬ now1 > now0 + 5 * 60 * 1000 from by omega]
  rw [hverify]
  have hfind2 : findTagById
      ({ updateTagRecord
          ({ st with
            tagOtpStore := otpInsert st.tagOtpStore (id ++ ":" ++ phone)
              { otp := otpString rand, expiresAt := now0 + 5 * 60 * 1000,
                pendingData := patch } } : Store) id
          (fun t => commitVerifiedPatch t (vp.getD patch) phone) with
        tagOtpStore := otpDelete (otpInsert st.tagOtpStore (id ++ ":" ++ phone)
          { otp := otpString rand, expiresAt := now0 + 5 * 60 * 1000,
            pendingData := patch }) (id ++ ":" ++ phone) } : Store) id =
      some (commitVerifiedPatch tag (vp.getD patch) phone) := by
    rw [findTagById_set_otpStore, findTagById_updateTagRecord _ _ _
      (fun t => commitVerifiedPatch_id t _ _), hfind1]
    rfl
  have hlook2 : otpLookup (otpDelete (otpInsert st.tagOtpStore (id ++ ":" ++ phone)
      { otp := otpString rand, expiresAt := now0 + 5 * 60 * 1000,
        pendingData := patch }) (id ++ ":" ++ phone)) (id ++ ":" ++ phone) = none :=
    otpLookup_delete_self _ _
  refine ⟨rfl, hlook, ⟨100000 + rand % 900000, rfl, by omega, by omega⟩, rfl,
    hfind2, hlook2, ?_⟩
  simp [verifyTagOtpAndUpdate, hfind2, commitVerifiedPatch_userId, hown, hlook2]

theorem otp_send_verify_roundtrip_witness :
    (sendTagOtp sampleStore "tag-1" (some "u1") "9998887777"
      (some { nickname := some "Car2" }) 383920 1000).1 = .sent ∧
    otpLookup (sendTagOtp sampleStore "tag-1" (some "u1") "9998887777"
        (some { nickname := some "Car2" }) 383920 1000).2.tagOtpStore
      ("tag-1" ++ ":" ++ "9998887777") =
      some { otp := otpString 383920, expiresAt := 1000 + 5 * 60 * 1000,
             pendingData := { nickname := some "Car2" } } ∧
    (∃ n, otpString 383920 = toString n ∧ 100000 ≤ n ∧ n ≤ 999999) ∧
    (verifyTagOtpAndUpdate (sendTagOtp sampleStore "tag-1" (some "u1") "9998887777"
        (some { nickname := some "Car2" }) 383920 1000).2 "tag-1" (some "u1")
      "9998887777" (otpString 383920) none 2000).1 =
      .updated (formatTagResponse (commitVerifiedPatch sampleTag
        ((none : Option TagPatch).getD { nickname := some "Car2" }) "9998887777")) ∧
    findTagById (verifyTagOtpAndUpdate (sendTagOtp sampleStore "tag-1" (some "u1")
        "9998887777" (some { nickname := some "Car2" }) 383920 1000).2 "tag-1"
        (some "u1") "9998887777" (otpString 383920) none 2000).2 "tag-1" =
      some (commitVerifiedPatch sampleTag
        ((none : Option TagPatch).getD { nickname := some "Car2" }) "9998887777") ∧
    otpLookup (verifyTagOtpAndUpdate (sendTagOtp sampleStore "tag-1" (some "u1")
        "9998887777" (some { nickname := some "Car2" }) 383920 1000).2 "tag-1"
        (some "u1") "9998887777" (otpString 383920) none 2000).2.tagOtpStore
      ("tag-1" ++ ":" ++ "9998887777") = none ∧
    verifyTagOtpAndUpdate (verifyTagOtpAndUpdate (sendTagOtp sampleStore "tag-1"
        (some "u1") "9998887777" (some { nickname := some "Car2" }) 383920 1000).2
        "tag-1" (some "u1") "9998887777" (otpString 383920) none 2000).2 "tag-1"
      (some "u1") "9998887777" (otpString 383920) none 2000 =
      (.noPendingOtp, (verifyTagOtpAndUpdate (sendTagOtp sampleStore "tag-1"
        (some "u1") "9998887777" (some { nickname := some "Car2" }) 383920 1000).2
        "tag-1" (some "u1") "9998887777" (otpString 383920) none 2000).2) :=
  otp_send_verify_roundtrip sampleStore _ _ "tag-1" "u1" "9998887777"
    { nickname := some "Car2" } none sampleTag 383920 1000 2000
    (by decide) (by decide) (by decide) (by decide) rfl rfl

/-- The tag table projected to `(id, emergencyContactPhone)` pairs. -/
def tagPhones (l : List Tag) : List (String × Option String) :=
  l.map (fun t => (t.id, t.emergencyContactPhone))

theorem tagPhones_map_ite (l : List Tag) (id : String) (f : Tag → Tag)
    (h : ∀ t, (f t).id = t.id ∧ (f t).emergencyContactPhone = t.emergencyContactPhone) :
    tagPhones (l.map (fun t => if t.id = id then f t else t)) = tagPhones l := by
  unfold tagPhones
  induction l with
  | nil => rfl
  | cons a l ih =>
    simp only [List.map_cons, ih]
    congr 1
    by_cases hc : a.id = id
    · rw [if_pos hc, (h a).1, (h a).2]
    · rw [if_neg hc]

theorem toggleSetting_id_phone (t : Tag) (s : PrivacySetting) :
    (toggleSetting t s).id = t.id ∧
    (toggleSetting t s).emergencyContactPhone = t.emergencyContactPhone := by
  cases s <;> exact ⟨rfl, rfl⟩

/-- Claim C3: none of `updateTag`, `updatePrivacy`, `activateTag`,
`getPublicTag`, `sendTagOtp` ever writes the stored `emergencyContactPhone`
of any tag; `verifyTagOtpAndUpdate` leaves every phone unchanged unless its
result is `updated`, and it can only answer `updated` after finding a pending
entry whose code matches the submitted one and whose expiry has not passed —
i.e. the phone may only change through a successfully verified OTP flow. -/
theorem emergencyPhone_write_isolation :
    (∀ st id userId patch,
      tagPhones (updateTag st id userId patch).2.tags = tagPhones st.tags) ∧
    (∀ st id setting,
      tagPhones (updatePrivacy st id setting).2.tags = tagPhones st.tags) ∧
    (∀ st code userId nickname plateNumber,
      tagPhones (activateTag st code userId nickname plateNumber).2.tags =
        tagPhones st.tags) ∧
    (∀ st identifier app now,
      tagPhones (getPublicTag st identifier app now).2.tags = tagPhones st.tags) ∧
    (∀ st id userId phone pd rand now,
      tagPhones (sendTagOtp st id userId phone pd rand now).2.tags =
        tagPhones st.tags) ∧
    (∀ st id userId phone otp pd now,
      (∀ body, (verifyTagOtpAndUpdate st id userId phone otp pd now).1 ≠
        .updated body) →
      tagPhones (verifyTagOtpAndUpdate st id userId phone otp pd now).2.tags =
        tagPhones st.tags) ∧
    (∀ st id userId phone otp pd now body,
      (verifyTagOtpAndUpdate st id userId phone otp pd now).1 = .updated body →
      ∃ stored, otpLookup st.tagOtpStore (id ++ ":" ++ phone) = some stored ∧
        stored.otp = otp ∧ ¬ now > stored.expiresAt) := by
  refine ⟨?_, ?_, ?_, ?_, ?_, ?_, ?_⟩
  · intro st id userId patch
    unfold updateTag
    cases userId with
    | none => rfl
    | some uid =>
      cases hf : findTagById st id with
      | none => simp [hf]
      | some tag =>
        simp only [hf]
        by_cases h2 : tag.userId ≠ some uid
        · rw [if_pos h2]
        · rw [if_neg h2]
          by_cases h3 : isPhoneChanging tag patch = true
          · rw [if_pos h3]
          · rw [if_neg h3]
            exact tagPhones_map_ite st.tags id _ (fun t => ⟨rfl, rfl⟩)
  · intro st id setting
    unfold updatePrivacy
    cases hf : findTagById st id with
    | none => simp [hf]
    | some tag =>
      simp only [hf]
      exact tagPhones_map_ite st.tags id _ (fun t => toggleSetting_id_phone t setting)
  · intro st code userId nickname plateNumber
    unfold activateTag
    cases userId with
    | none => rfl
    | some uid =>
      cases hf : findTagByCode st code with
      | none => simp [hf]
      | some tag =>
        simp only [hf]
        by_cases h2 : tag.status = "active" ∨ strTruthy tag.userId = true
        · rw [if_pos h2]
        · rw [if_neg h2]
          exact tagPhones_map_ite st.tags tag.id _ (fun t => ⟨rfl, rfl⟩)
  · intro st identifier app now
    unfold getPublicTag
    cases hf : findTagByIdOrCode st identifier with
    | none => simp [hf]
    | some tag =>
      simp only [hf]
      by_cases h2 : tag.status = "created" ∧ strTruthy tag.userId = false
      · rw [if_pos h2]
        cases app <;> rfl
      · rw [if_neg h2]
  · intro st id userId phone pd rand now
    unfold sendTagOtp
    cases userId with
    | none => rfl
    | some uid =>
      cases hf : findTagById st id with
      | none => simp [hf]
      | some tag =>
        simp only [hf]
        by_cases h2 : tag.userId ≠ some uid
        · rw [if_pos h2]
        · rw [if_neg h2]
          by_cases h3 : phone = ""
          · rw [if_pos h3]
          · rw [if_neg h3]
  · intro st id userId phone otp pd now hne
    cases userId with
    | none => rfl
    | some uid =>
      cases hf : findTagById st id with
      | none => simp [verifyTagOtpAndUpdate, hf]
      | some tag =>
        by_cases ho : tag.userId = some uid
        · cases hl : otpLookup st.tagOtpStore (id ++ ":" ++ phone) with
          | none => simp [verifyTagOtpAndUpdate, hf, ho, hl]
          | some stored =>
            by_cases hexp : now > stored.expiresAt
            · simp [verifyTagOtpAndUpdate, hf, ho, hl, hexp]
            · by_cases hcode : stored.otp = otp
              · exfalso
                apply hne (formatTagResponse
                  (commitVerifiedPatch tag (pd.getD stored.pendingData) phone))
                simp [verifyTagOtpAndUpdate, hf, ho, hl, hexp, hcode]
              · simp [verifyTagOtpAndUpdate, hf, ho, hl, hexp, hcode]
        · simp [verifyTagOtpAndUpdate, hf, ho]
  · intro st id userId phone otp pd now body hupd
    cases userId with
    | none => simp [verifyTagOtpAndUpdate] at hupd
    | some uid =>
      cases hf : findTagById st id with
      | none => simp [verifyTagOtpAndUpdate, hf] at hupd
      | some tag =>
        by_cases ho : tag.userId = some uid
        · cases hl : otpLookup st.tagOtpStore (id ++ ":" ++ phone) with
          | none => simp [verifyTagOtpAndUpdate, hf, ho, hl] at hupd
          | some stored =>
            by_cases hexp : now > stored.expiresAt
            · simp [verifyTagOtpAndUpdate, hf, ho, hl, hexp] at hupd
            · by_cases hcode : stored.otp = otp
              · exact ⟨stored, rfl, hcode, hexp⟩
              · simp [verifyTagOtpAndUpdate, hf, ho, hl, hexp, hcode] at hupd
        · simp [verifyTagOtpAndUpdate, hf, ho] at hupd

theorem emergencyPhone_write_isolation_witness :
    tagPhones (updateTag sampleStore "tag-1" (some "u1")
      { nickname := some "Car2" }).2.tags = tagPhones sampleStore.tags ∧
    tagPhones (verifyTagOtpAndUpdate sampleStore "tag-1" (some "u1") "123"
      "000000" none 0).2.tags = tagPhones sampleStore.tags :=
  ⟨emergencyPhone_write_isolation.1 sampleStore "tag-1" (some "u1") _,
   emergencyPhone_write_isolation.2.2.2.2.2.1 sampleStore "tag-1" (some "u1")
     "123" "000000" none 0
     (by intro body h
         rw [show (verifyTagOtpAndUpdate sampleStore "tag-1" (some "u1") "123"
           "000000" none 0).1 = VerifyOtpResult.noPendingOtp from by decide] at h
         exact VerifyOtpResult.noConfusion h)⟩

/-! ### Scan-log lemmas -/

/-- One step of the claimed-tag read path: `getPublicTag` on a resolvable,
non-blank tag answers the formatted record and appends one scan row. -/
theorem getPublicTag_claimed_step (st : Store) (identifier : String)
    (app : Bool) (now : Nat) (tag : Tag)
    (hfind : findTagByIdOrCode st identifier = some tag)
    (hcl : ¬ (tag.status = "created" ∧ strTruthy tag.userId = false)) :
    getPublicTag st identifier app now =
      (.ok (formatTagResponse tag),
        { st with scans := st.scans ++
            [{ tagId := tag.id, location := "Unknown", timestamp := now }] }) := by
  unfold getPublicTag
  simp only [hfind]
  rw [if_neg hcl]

/-- N sequential public resolutions, at the given clock readings. -/
def resolveMany (st : Store) (identifier : String) (app : Bool)
    (times : List Nat) : Store :=
  times.foldl (fun s n => (getPublicTag s identifier app n).2) st

theorem resolveMany_claimed_scans (identifier : String) (app : Bool) (tag : Tag)
    (hcl : ¬ (tag.status = "created" ∧ strTruthy tag.userId = false)) :
    ∀ (times : List Nat) (st : Store),
      findTagByIdOrCode st identifier = some tag →
      (resolveMany st identifier app times).scans =
        st.scans ++ times.map
          (fun n => { tagId := tag.id, location := "Unknown", timestamp := n }) := by
  intro times
  induction times with
  | nil => intro st _; simp [resolveMany]
  | cons n ns ih =>
    intro st hfind
    have hstep : (getPublicTag st identifier app n).2 =
        { st with scans := st.scans ++
            [{ tagId := tag.id, location := "Unknown", timestamp := n }] } := by
      rw [getPublicTag_claimed_step st identifier app n tag hfind hcl]
    have hfind' : findTagByIdOrCode
        ({ st with scans := st.scans ++
            [{ tagId := tag.id, location := "Unknown", timestamp := n }] } : Store)
        identifier = some tag := hfind
    rw [show resolveMany st identifier app (n :: ns) =
        resolveMany (getPublicTag st identifier app n).2 identifier app ns from rfl,
      hstep, ih _ hfind']
    simp

theorem updateTag_scans (st : Store) (id : String) (userId : Option String)
    (patch : TagPatch) : (updateTag st id userId patch).2.scans = st.scans := by
  unfold updateTag
  repeat' split
  all_goals rfl

theorem updatePrivacy_scans (st : Store) (id : String) (setting : PrivacySetting) :
    (updatePrivacy st id setting).2.scans = st.scans := by
  unfold updatePrivacy
  repeat' split
  all_goals rfl

theorem activateTag_scans (st : Store) (code : String) (userId : Option String)
    (nickname plateNumber : Option String) :
    (activateTag st code userId nickname plateNumber).2.scans = st.scans := by
  unfold activateTag
  repeat' split
  all_goals rfl

theorem sendTagOtp_scans (st : Store) (id : String) (userId : Option String)
    (phone : String) (pd : Option TagPatch) (rand now : Nat) :
    (sendTagOtp st id userId phone pd rand now).2.scans = st.scans := by
  unfold sendTagOtp
  repeat' split
  all_goals rfl

theorem verifyTagOtpAndUpdate_scans (st : Store) (id : String)
    (userId : Option String) (phone otp : String) (pd : Option TagPatch)
    (now : Nat) :
    (verifyTagOtpAndUpdate st id userId phone otp pd now).2.scans = st.scans := by
  cases userId with
  | none => rfl
  | some uid =>
    cases hf : findTagById st id with
    | none => simp [verifyTagOtpAndUpdate, hf]
    | some tag =>
      by_cases ho : tag.userId = some uid
      · cases hl : otpLookup st.tagOtpStore (id ++ ":" ++ phone) with
        | none => simp [verifyTagOtpAndUpdate, hf, ho, hl]
        | some stored =>
          by_cases hexp : now > stored.expiresAt
          · simp [verifyTagOtpAndUpdate, hf, ho, hl, hexp]
          · by_cases hcode : stored.otp = otp
            · simp [verifyTagOtpAndUpdate, hf, ho, hl, hexp, hcode, updateTagRecord]
            · simp [verifyTagOtpAndUpdate, hf, ho, hl, hexp, hcode]
      · simp [verifyTagOtpAndUpdate, hf, ho]

/-- Claim C8: every successful public resolution of a claimed tag appends
exactly one `{timestamp := now, location := "Unknown"}` row; N sequential
resolutions append exactly the N rows stamped with the call times (so the
timestamps are non-decreasing whenever the clock is); and no operation of the
core ever rewrites or shrinks the scan log — each one's output scan log is
the input log plus a (possibly empty) appended suffix. -/
theorem scanLog_append_only :
    (∀ st identifier app now tag, findTagByIdOrCode st identifier = some tag →
      ¬ (tag.status = "created" ∧ strTruthy tag.userId = false) →
      (getPublicTag st identifier app now).2.scans =
        st.scans ++ [{ tagId := tag.id, location := "Unknown", timestamp := now }]) ∧
    (∀ st identifier app times tag, findTagByIdOrCode st identifier = some tag →
      ¬ (tag.status = "created" ∧ strTruthy tag.userId = false) →
      (resolveMany st identifier app times).scans =
        st.scans ++ times.map
          (fun n => { tagId := tag.id, location := "Unknown", timestamp := n }) ∧
      (List.Chain' (· ≤ ·) times →
        List.Chain' (fun s1 s2 => s1.timestamp ≤ s2.timestamp)
          (times.map (fun n =>
            ({ tagId := tag.id, location := "Unknown", timestamp := n } : Scan))))) ∧
    (∀ st id userId patch,
      ∃ extra, (updateTag st id userId patch).2.scans = st.scans ++ extra) ∧
    (∀ st id setting,
      ∃ extra, (updatePrivacy st id setting).2.scans = st.scans ++ extra) ∧
    (∀ st code userId nickname plateNumber,
      ∃ extra, (activateTag st code userId nickname plateNumber).2.scans =
        st.scans ++ extra) ∧
    (∀ st identifier app now,
      ∃ extra, (getPublicTag st identifier app now).2.scans = st.scans ++ extra) ∧
    (∀ st id userId phone pd rand now,
      ∃ extra, (sendTagOtp st id userId phone pd rand now).2.scans =
        st.scans ++ extra) ∧
    (∀ st id userId phone otp pd now,
      ∃ extra, (verifyTagOtpAndUpdate st id userId phone otp pd now).2.scans =
        st.scans ++ extra) := by
  refine ⟨?_, ?_, ?_, ?_, ?_, ?_, ?_, ?_⟩
  · intro st identifier app now tag hfind hcl
    rw [getPublicTag_claimed_step st identifier app now tag hfind hcl]
  · intro st identifier app times tag hfind hcl
    refine ⟨resolveMany_claimed_scans identifier app tag hcl times st hfind, ?_⟩
    intro h
    rw [List.chain'_map]
    simpa using h
  · intro st id userId patch
    exact ⟨[], by rw [updateTag_scans]; simp⟩
  · intro st id setting
    exact ⟨[], by rw [updatePrivacy_scans]; simp⟩
  · intro st code userId nickname plateNumber
    exact ⟨[], by rw [activateTag_scans]; simp⟩
  · intro st identifier app now
    unfold getPublicTag
    cases hf : findTagByIdOrCode st identifier with
    | none => exact ⟨[], by simp⟩
    | some tag =>
      simp only [hf]
      by_cases h2 : tag.status = "created" ∧ strTruthy tag.userId = false
      · rw [if_pos h2]
        cases app
        · exact ⟨[], by simp⟩
        · exact ⟨[], by simp⟩
      · rw [if_neg h2]
        exact ⟨[{ tagId := tag.id, location := "Unknown", timestamp := now }], rfl⟩
  · intro st id userId phone pd rand now
    exact ⟨[], by rw [sendTagOtp_scans]; simp⟩
  · intro st id userId phone otp pd now
    exact ⟨[], by rw [verifyTagOtpAndUpdate_scans]; simp⟩

theorem scanLog_append_only_witness :
    (getPublicTag sampleStore "TAG-AB12CD34" false 5).2.scans =
      sampleStore.scans ++
        [{ tagId := "tag-1", location := "Unknown", timestamp := 5 }] ∧
    (resolveMany sampleStore "TAG-AB12CD34" false [5, 7, 7, 9]).scans =
      sampleStore.scans ++ [5, 7, 7, 9].map
        (fun n => { tagId := sampleTag.id, location := "Unknown", timestamp := n }) :=
  ⟨scanLog_append_only.1 sampleStore "TAG-AB12CD34" false 5 sampleTag
      (by decide) (by decide),
   ((scanLog_append_only.2.1 sampleStore "TAG-AB12CD34" false [5, 7, 7, 9]
      sampleTag (by decide) (by decide)).1)⟩

/-- Claim C1, evaluated at the failing input: `getPublicTag` on a claimed tag
whose flags forbid WhatsApp and hide the emergency contact still returns the
spread of the whole row — the owner id, the raw flags, the raw phone column
and a present (non-omitted) `emergencyContact` block. -/
theorem resolvePublic_leaks_private_fields :
    sampleTag.showEmergencyContact = false ∧
    sampleTag.allowWhatsapp = false ∧
    (getPublicTag sampleStore "TAG-AB12CD34" false 0).1 =
      .ok (formatTagResponse sampleTag) ∧
    (formatTagResponse sampleTag).userId = some "u1" ∧
    (formatTagResponse sampleTag).emergencyContact =
      some { name := some "Alice", phone := some "9876543210" } ∧
    (formatTagResponse sampleTag).emergencyContactPhone = some "9876543210" ∧
    (formatTagResponse sampleTag).privacy.allowWhatsapp = false := by decide

/-- `true` exactly on a finished, successful claim attempt. -/
def claimSucceeded : ClaimPc → Bool
  | .done (.activated _) => true
  | _ => false

/-- Claim C7, evaluated at the failing schedule: two concurrent
`activateTag` requests for the same blank code, interleaved
read–read–write–write at the storage `await` boundaries, BOTH succeed, and
the final owner is the second writer — the source's check-and-set is a
read-then-write, not an atomic conditional update. -/
theorem claim_race_two_successes :
    blankTag.status = "created" ∧ blankTag.userId = none ∧
    claimSucceeded (runTwoClaims "TAG-BLANK001" { uid := "u1" } { uid := "u2" }
      [true, false, true, false] sampleStore).1 = true ∧
    claimSucceeded (runTwoClaims "TAG-BLANK001" { uid := "u1" } { uid := "u2" }
      [true, false, true, false] sampleStore).2.1 = true ∧
    ((runTwoClaims "TAG-BLANK001" { uid := "u1" } { uid := "u2" }
      [true, false, true, false] sampleStore).2.2.tags.map
        (fun t => (t.id, t.userId))) =
      [("tag-1", some "u1"), ("tag-2", some "u2")] := by decide

/-! ### QR payload lemmas -/

theorem secret_byte_lt (j : Nat) :
    (stringToBytes SECRET_KEY).getD (j % (stringToBytes SECRET_KEY).length) 0 < 128 := by
  have h24 : (stringToBytes SECRET_KEY).length = 24 := by decide
  rw [h24]
  exact (by decide : ∀ m < 24, (stringToBytes SECRET_KEY).getD m 0 < 128) _
    (Nat.mod_lt _ (by omega))

theorem xorFrom_lt_128 (bs : List Nat) (h : ∀ b ∈ bs, b < 128) :
    ∀ i, ∀ x ∈ xorFrom (stringToBytes SECRET_KEY) i bs, x < 128 := by
  induction bs with
  | nil => intro i x hx; simp [xorFrom] at hx
  | cons b bs ih =>
    intro i x hx
    simp only [xorFrom, List.mem_cons] at hx
    cases hx with
    | inl hx1 =>
      subst hx1
      exact Nat.xor_lt_two_pow (n := 7) (h b (by simp)) (secret_byte_lt i)
    | inr hx2 =>
      exact ih (fun b hb => h b (by simp [hb])) (i + 1) x hx2

theorem xorFrom_involution (key : List Nat) (bs : List Nat) :
    ∀ i, xorFrom key i (xorFrom key i bs) = bs := by
  induction bs with
  | nil => intro i; rfl
  | cons b bs ih =>
    intro i
    simp [xorFrom, Nat.xor_cancel_right, ih (i + 1)]

theorem b64Index_b64Char : ∀ e < 64, b64Index (b64Char e) = some e := by decide

theorem b64Char_ne_pad : ∀ e < 64, b64Char e ≠ '=' := by decide

theorem and63_eq_mod (x : Nat) : x &&& 63 = x % 64 := by
  have h : (63 : Nat) = 2 ^ 6 - 1 := by norm_num
  rw [h, Nat.and_pow_two_sub_one_eq_mod]

theorem b64e1_lt (b1 : Nat) : b64e1 b1 < 64 := by
  unfold b64e1
  have h := Nat.and_le_right (n := b1 >>> 2) (m := 63)
  omega

theorem b64e2_lt (b1 b2 : Nat) : b64e2 b1 b2 < 64 := by
  unfold b64e2
  have h := Nat.and_le_right (n := (b1 <<< 4) ||| (b2 >>> 4)) (m := 63)
  omega

theorem b64e3_lt (b2 b3 : Nat) : b64e3 b2 b3 < 64 := by
  unfold b64e3
  have h := Nat.and_le_right (n := (b2 <<< 2) ||| (b3 >>> 6)) (m := 63)
  omega

theorem b64e4_lt (b3 : Nat) : b64e4 b3 < 64 := by
  unfold b64e4
  have h := Nat.and_le_right (n := b3) (m := 63)
  omega

theorem or_eq_add_16 (a b : Nat) (hb : b < 16) : (16 * a) ||| b = 16 * a + b := by
  have h2 : b < 2 ^ 4 := by simpa using hb
  have h := Nat.mul_add_lt_is_or h2 a
  norm_num at h
  omega

theorem or_eq_add_4 (a b : Nat) (hb : b < 4) : (4 * a) ||| b = 4 * a + b := by
  have h2 : b < 2 ^ 2 := by simpa using hb
  have h := Nat.mul_add_lt_is_or h2 a
  norm_num at h
  omega

theorem b64e1_eq (b1 : Nat) : b64e1 b1 = (b1 / 4) % 64 := by
  unfold b64e1
  rw [Nat.shiftRight_eq_div_pow, and63_eq_mod]

theorem b64e2_eq (b1 b2 : Nat) (h2 : b2 < 256) :
    b64e2 b1 b2 = (16 * b1 + b2 / 16) % 64 := by
  unfold b64e2
  rw [Nat.shiftLeft_eq, Nat.shiftRight_eq_div_pow, and63_eq_mod]
  norm_num
  rw [mul_comm b1 16, or_eq_add_16 b1 (b2 / 16) (by omega)]

theorem b64e3_eq (b2 b3 : Nat) (h3 : b3 < 256) :
    b64e3 b2 b3 = (4 * b2 + b3 / 64) % 64 := by
  unfold b64e3
  rw [Nat.shiftLeft_eq, Nat.shiftRight_eq_div_pow, and63_eq_mod]
  norm_num
  rw [mul_comm b2 4, or_eq_add_4 b2 (b3 / 64) (by omega)]

theorem b64e4_eq (b3 : Nat) : b64e4 b3 = b3 % 64 := and63_eq_mod b3

theorem b64_dec1 (b1 b2 : Nat) (h1 : b1 < 256) (h2 : b2 < 256) :
    b64e1 b1 * 4 + b64e2 b1 b2 / 16 = b1 := by
  rw [b64e1_eq, b64e2_eq b1 b2 h2]
  omega

theorem b64_dec2 (b1 b2 b3 : Nat) (_h1 : b1 < 256) (h2 : b2 < 256)
    (h3 : b3 < 256) :
    (b64e2 b1 b2 % 16) * 16 + b64e3 b2 b3 / 4 = b2 := by
  rw [b64e2_eq b1 b2 h2, b64e3_eq b2 b3 h3]
  omega

theorem b64_dec3 (b2 b3 : Nat) (_h2 : b2 < 256) (h3 : b3 < 256) :
    (b64e3 b2 b3 % 4) * 64 + b64e4 b3 = b3 := by
  rw [b64e3_eq b2 b3 h3, b64e4_eq]
  omega

theorem base64_roundtrip :
    ∀ (bs : List Nat), (∀ b ∈ bs, b < 256) →
      base64DecodeChars (bytesToBase64 bs) = some bs := by
  intro bs
  induction bs using bytesToBase64.induct with
  | case1 => intro _; rfl
  | case2 b1 =>
    intro h
    have h1 : b1 < 256 := h b1 (by simp)
    simp only [bytesToBase64, base64DecodeChars,
      b64Index_b64Char _ (b64e1_lt b1), b64Index_b64Char _ (b64e2_lt b1 0)]
    simp [b64_dec1 b1 0 h1 (by omega)]
  | case3 b1 b2 =>
    intro h
    have h1 : b1 < 256 := h b1 (by simp)
    have h2 : b2 < 256 := h b2 (by simp)
    simp only [bytesToBase64, base64DecodeChars,
      b64Index_b64Char _ (b64e1_lt b1), b64Index_b64Char _ (b64e2_lt b1 b2),
      b64Index_b64Char _ (b64e3_lt b2 0)]
    simp [b64Char_ne_pad _ (b64e3_lt b2 0), b64_dec1 b1 b2 h1 h2,
      b64_dec2 b1 b2 0 h1 h2 (by omega)]
  | case4 b1 b2 b3 rest ih =>
    intro h
    have h1 : b1 < 256 := h b1 (by simp)
    have h2 : b2 < 256 := h b2 (by simp)
    have h3 : b3 < 256 := h b3 (by simp)
    have hrest : ∀ b ∈ rest, b < 256 := fun b hb => h b (by simp [hb])
    simp only [bytesToBase64, base64DecodeChars,
      b64Index_b64Char _ (b64e1_lt b1), b64Index_b64Char _ (b64e2_lt b1 b2),
      b64Index_b64Char _ (b64e3_lt b2 b3), b64Index_b64Char _ (b64e4_lt b3),
      ih hrest]
    simp [b64Char_ne_pad _ (b64e3_lt b2 b3), b64Char_ne_pad _ (b64e4_lt b3),
      b64_dec1 b1 b2 h1 h2, b64_dec2 b1 b2 b3 h1 h2 h3, b64_dec3 b2 b3 h2 h3]

/-- Claim C9: for an ASCII tag code, `buildQrPayload` produces `CC::1:`
followed by the base64 encoding of the code's bytes XORed with the repeating
shared-secret keystream, and the mirror decoding operation (strip the
prefix and version marker, base64-decode, XOR with the same key) recovers
exactly the original code — decoding is a left inverse of the builder. -/
theorem qr_payload_roundtrip (code : String)
    (hascii : ∀ c ∈ code.data, c.toNat < 128) :
    decodeQrPayload (buildQrPayload code) = some code := by
  have hplain : ∀ b ∈ stringToBytes code, b < 128 := by
    intro b hb
    simp only [stringToBytes, List.mem_map] at hb
    obtain ⟨c, hc, rfl⟩ := hb
    exact hascii c hc
  have henc : ∀ b ∈ xorFrom (stringToBytes SECRET_KEY) 0 (stringToBytes code),
      b < 256 := by
    intro x hx
    have := xorFrom_lt_128 (stringToBytes code) hplain 0 x hx
    omega
  have hstep : decodeQrPayload (buildQrPayload code) =
      match base64DecodeChars (encryptTagCode code) with
      | some bytes =>
        some (String.mk ((xorFrom (stringToBytes SECRET_KEY) 0 bytes).map Char.ofNat))
      | none => none := rfl
  rw [hstep,
    show encryptTagCode code =
      bytesToBase64 (xorFrom (stringToBytes SECRET_KEY) 0 (stringToBytes code))
      from rfl,
    base64_roundtrip _ henc]
  show some (String.mk ((xorFrom (stringToBytes SECRET_KEY) 0
      (xorFrom (stringToBytes SECRET_KEY) 0 (stringToBytes code))).map Char.ofNat)) =
    some code
  rw [xorFrom_involution (stringToBytes SECRET_KEY) (stringToBytes code) 0]
  rw [show (stringToBytes code).map Char.ofNat = code.data from by
    simp [stringToBytes, List.map_map, Function.comp_def, Char.ofNat_toNat]]

theorem qr_payload_roundtrip_witness :
    decodeQrPayload (buildQrPayload "TAG-AB12CD34") = some "TAG-AB12CD34" :=
  qr_payload_roundtrip "TAG-AB12CD34" (by decide)

end CarCard
